import Mathlib

/- Verification of the AO3rs crate against its specification.

   Part 1 embeds src/query.rs: the typed query-value model (Period, DateRange,
   CompletionStatus, CrossoverStatus, NumericalValueRange, MultiString, Rating,
   ArchiveWarning, MultiSelect, Category, SortBy, SortDirection), the
   AO3QueryBuilder descriptor and its create_url renderer.

   Part 2 embeds src/parse.rs: the HTML record extractor (parse_search,
   parse_search_single_work, search_by_attrib, search_all_by_attrib,
   get_all_nodes) over a rose-tree model of the parsed HTML document.

   Rust usize values are modelled as Nat (only their decimal rendering is used),
   Vec as List, and String as String. Fallible Rust code returns Except values;
   a Rust panic (unwrap of None) is modelled by an explicit panicked outcome. -/

/-- Constant BASE_AO3_SEARCH_URL from src/query.rs line 1. -/
def BASE_AO3_SEARCH_URL : String := "https://archiveofourown.org/works/search?"

/-- Enum Period from src/query.rs. -/
inductive Period where
  | years
  | weeks
  | months
  | days
  | hours
deriving DecidableEq

/-- Display impl for Period (src/query.rs lines 32-42). -/
def Period.displayStr : Period → String
  | .years => "years"
  | .weeks => "weeks"
  | .months => "months"
  | .days => "days"
  | .hours => "hours"

/-- Enum DateRange from src/query.rs (None is the neutral default). -/
inductive DateRange where
  | none
  | exactly (time : Nat) (period : Period)
  | moreThan (time : Nat) (period : Period)
  | lessThan (time : Nat) (period : Period)
  | between (from_time to_time : Nat) (period : Period)
deriving DecidableEq

/-- QueryValue::to_query_value for DateRange (src/query.rs lines 64-74); format
    strings are translated to explicit string appends, with Nat rendered in
    decimal exactly as Rust usize Display does. -/
def DateRange.to_query_value : DateRange → String
  | .none => ""
  | .exactly time period => toString time ++ " " ++ period.displayStr ++ " ago"
  | .moreThan time period => "> " ++ toString time ++ " " ++ period.displayStr ++ " ago"
  | .lessThan time period => "< " ++ toString time ++ " " ++ period.displayStr ++ " ago"
  | .between from_time to_time period =>
      toString from_time ++ "-" ++ toString to_time ++ " " ++ period.displayStr

/-- QueryValue::is_included for DateRange: self != None (src/query.rs lines 76-78). -/
def DateRange.is_included : DateRange → Bool
  | .none => false
  | _ => true

/-- Enum CompletionStatus from src/query.rs (Ignore is the neutral default). -/
inductive CompletionStatus where
  | ignore
  | onlyCompleted
  | onlyIncomplete
deriving DecidableEq

/-- QueryValue::to_query_value for CompletionStatus (src/query.rs lines 125-131). -/
def CompletionStatus.to_query_value : CompletionStatus → String
  | .ignore => ""
  | .onlyCompleted => "T"
  | .onlyIncomplete => "F"

/-- QueryValue::is_included for CompletionStatus: self != Ignore. -/
def CompletionStatus.is_included : CompletionStatus → Bool
  | .ignore => false
  | _ => true

/-- Enum CrossoverStatus from src/query.rs (Ignore is the neutral default). -/
inductive CrossoverStatus where
  | ignore
  | onlyCrossover
  | onlyNonCrossover
deriving DecidableEq

/-- QueryValue::to_query_value for CrossoverStatus (src/query.rs lines 176-182). -/
def CrossoverStatus.to_query_value : CrossoverStatus → String
  | .ignore => ""
  | .onlyCrossover => "T"
  | .onlyNonCrossover => "F"

/-- QueryValue::is_included for CrossoverStatus: self != Ignore. -/
def CrossoverStatus.is_included : CrossoverStatus → Bool
  | .ignore => false
  | _ => true

/-- QueryValue::to_query_value for bool (src/query.rs lines 202-207). -/
def Bool.to_query_value : Bool → String
  | true => "1"
  | false => "0"

/-- QueryValue::is_included for bool: always true (src/query.rs lines 209-211). -/
def Bool.is_included (_ : Bool) : Bool :=
  true

/-- QueryValue::to_query_value for String: the string itself (src/query.rs lines 14-16). -/
def String.to_query_value (s : String) : String :=
  s

/-- QueryValue::is_included for String: non-empty (src/query.rs lines 18-20). -/
def String.is_included (s : String) : Bool :=
  !s.isEmpty

/-- Enum NumericalValueRange from src/query.rs (None is the neutral default). -/
inductive NumericalValueRange where
  | none
  | exactly (num : Nat)
  | moreThan (num : Nat)
  | lessThan (num : Nat)
  | between (from_num to_num : Nat)
deriving DecidableEq

/-- QueryValue::to_query_value for NumericalValueRange (src/query.rs lines 227-235). -/
def NumericalValueRange.to_query_value : NumericalValueRange → String
  | .none => ""
  | .exactly num => toString num
  | .moreThan num => "> " ++ toString num
  | .lessThan num => "< " ++ toString num
  | .between from_num to_num => toString from_num ++ "-" ++ toString to_num

/-- QueryValue::is_included for NumericalValueRange: self != None. -/
def NumericalValueRange.is_included : NumericalValueRange → Bool
  | .none => false
  | _ => true

/-- Struct MultiString(Vec of String) from src/query.rs, modelled as its payload list. -/
abbrev MultiString := List String

/-- QueryValue::to_query_value for MultiString: join with commas (src/query.rs line 263). -/
def MultiString.to_query_value (ms : MultiString) : String :=
  String.intercalate "," ms

/-- QueryValue::is_included for MultiString: non-empty vector (src/query.rs line 267). -/
def MultiString.is_included (ms : MultiString) : Bool :=
  !ms.isEmpty

/-- Enum Rating from src/query.rs with its declared discriminants. -/
inductive Rating where
  | none
  | notRated
  | general
  | teenAndUp
  | mature
  | explicit
deriving DecidableEq

/-- Declared integer discriminants of Rating (src/query.rs lines 279-298); None has
    the implicit Rust discriminant 0 and is never rendered through it. -/
def Rating.code : Rating → Nat
  | .none => 0
  | .notRated => 9
  | .general => 10
  | .teenAndUp => 11
  | .mature => 12
  | .explicit => 13

/-- QueryValue::to_query_value for Rating: empty for None, decimal discriminant
    otherwise (src/query.rs lines 303-312). -/
def Rating.to_query_value : Rating → String
  | .none => ""
  | .mature => toString Rating.mature.code
  | .explicit => toString Rating.explicit.code
  | .notRated => toString Rating.notRated.code
  | .teenAndUp => toString Rating.teenAndUp.code
  | .general => toString Rating.general.code

/-- QueryValue::is_included for Rating: self != None (src/query.rs lines 314-316). -/
def Rating.is_included : Rating → Bool
  | .none => false
  | _ => true

/-- Enum ArchiveWarning from src/query.rs with its declared discriminants; it has
    no neutral variant. -/
inductive ArchiveWarning where
  | creatureChoseNotToUseArchiveWarnings
  | graphicDepictionOfViolence
  | majorCharacterDeath
  | noArchiveWarningsApply
  | rapeNonCon
  | underage
deriving DecidableEq

/-- Declared integer discriminants of ArchiveWarning (src/query.rs lines 333-340). -/
def ArchiveWarning.code : ArchiveWarning → Nat
  | .creatureChoseNotToUseArchiveWarnings => 14
  | .graphicDepictionOfViolence => 17
  | .majorCharacterDeath => 18
  | .noArchiveWarningsApply => 16
  | .rapeNonCon => 19
  | .underage => 20

/-- QueryValue::to_query_value for ArchiveWarning: decimal discriminant
    (src/query.rs lines 344-360). -/
def ArchiveWarning.to_query_value (w : ArchiveWarning) : String :=
  toString w.code

/-- QueryValue::is_included for ArchiveWarning: always true (src/query.rs lines 363-365). -/
def ArchiveWarning.is_included (_ : ArchiveWarning) : Bool :=
  true

/-- Struct MultiSelect(Vec of T) from src/query.rs, modelled as its payload list. -/
abbrev MultiSelect (α : Type) := List α

/-- QueryValue::to_query_value for MultiSelect: render every element
    (src/query.rs lines 415-417); the element renderer is passed explicitly in
    place of the Rust trait dictionary. -/
def MultiSelect.to_query_value (f : α → String) (l : MultiSelect α) : List String :=
  l.map f

/-- QueryValue::is_included for MultiSelect: non-empty vector (src/query.rs lines 419-421). -/
def MultiSelect.is_included (l : MultiSelect α) : Bool :=
  !l.isEmpty

/-- Enum Category from src/query.rs with its declared discriminants; it has no
    neutral variant. -/
inductive Category where
  | ff
  | fm
  | gen
  | mm
  | multi
  | other
deriving DecidableEq

/-- Declared integer discriminants of Category (src/query.rs lines 431-449). -/
def Category.code : Category → Nat
  | .ff => 116
  | .fm => 22
  | .gen => 21
  | .mm => 23
  | .multi => 2246
  | .other => 24

/-- QueryValue::to_query_value for Category: decimal discriminant
    (src/query.rs lines 454-462). -/
def Category.to_query_value (c : Category) : String :=
  toString c.code

/-- QueryValue::is_included for Category: always true (src/query.rs lines 465-467). -/
def Category.is_included (_ : Category) : Bool :=
  true

/-- Enum SortBy from src/query.rs (only BestMatch is implemented). -/
inductive SortBy where
  | bestMatch
deriving DecidableEq

/-- QueryValue::to_query_value for SortBy (src/query.rs lines 492-496). -/
def SortBy.to_query_value : SortBy → String
  | .bestMatch => "_score"

/-- QueryValue::is_included for SortBy: always true. -/
def SortBy.is_included (_ : SortBy) : Bool :=
  true

/-- Enum SortDirection from src/query.rs (Descending is the default). -/
inductive SortDirection where
  | descending
  | ascending
deriving DecidableEq

/-- QueryValue::to_query_value for SortDirection (src/query.rs lines 521-526). -/
def SortDirection.to_query_value : SortDirection → String
  | .descending => "desc"
  | .ascending => "asc"

/-- QueryValue::is_included for SortDirection: always true. -/
def SortDirection.is_included (_ : SortDirection) : Bool :=
  true

/-- Struct AO3QueryBuilder from src/query.rs lines 542-606, with the Default
    derive expressed as field defaults (empty strings and vectors, the neutral
    enum variants, false for the boolean). -/
structure AO3QueryBuilder where
  any_field : String := ""
  title : String := ""
  authors : MultiString := []
  date : DateRange := DateRange.none
  completion_status : CompletionStatus := CompletionStatus.ignore
  crossover_status : CrossoverStatus := CrossoverStatus.ignore
  is_single_chapter : Bool := false
  word_count : NumericalValueRange := NumericalValueRange.none
  fandoms : MultiString := []
  rating : Rating := Rating.none
  archive_warnings : MultiSelect ArchiveWarning := []
  categories : MultiSelect Category := []
  characters : MultiString := []
  relationships : MultiString := []
  additional_tags : MultiString := []
  hits : NumericalValueRange := NumericalValueRange.none
  kudos : NumericalValueRange := NumericalValueRange.none
  comments : NumericalValueRange := NumericalValueRange.none
  bookmarks : NumericalValueRange := NumericalValueRange.none
  sort_by : SortBy := SortBy.bestMatch
  sort_direction : SortDirection := SortDirection.descending
deriving DecidableEq

/-- AO3QueryBuilder::new (src/query.rs lines 609-613): all fields at defaults. -/
def AO3QueryBuilder.new : AO3QueryBuilder :=
  {}

/-- Setter AO3QueryBuilder::set_title. -/
def AO3QueryBuilder.set_title (b : AO3QueryBuilder) (title : String) : AO3QueryBuilder :=
  { b with title := title }

/-- Setter AO3QueryBuilder::set_authors. -/
def AO3QueryBuilder.set_authors (b : AO3QueryBuilder) (authors : List String) : AO3QueryBuilder :=
  { b with authors := authors }

/-- Setter AO3QueryBuilder::push_author (Vec::push appends at the end). -/
def AO3QueryBuilder.push_author (b : AO3QueryBuilder) (author : String) : AO3QueryBuilder :=
  { b with authors := b.authors ++ [author] }

/-- Setter AO3QueryBuilder::set_date_range. -/
def AO3QueryBuilder.set_date_range (b : AO3QueryBuilder) (date : DateRange) : AO3QueryBuilder :=
  { b with date := date }

/-- Setter AO3QueryBuilder::only_completed. -/
def AO3QueryBuilder.only_completed (b : AO3QueryBuilder) : AO3QueryBuilder :=
  { b with completion_status := CompletionStatus.onlyCompleted }

/-- Setter AO3QueryBuilder::ignore_completion_status. -/
def AO3QueryBuilder.ignore_completion_status (b : AO3QueryBuilder) : AO3QueryBuilder :=
  { b with completion_status := CompletionStatus.ignore }

/-- Setter AO3QueryBuilder::only_incomplete. -/
def AO3QueryBuilder.only_incomplete (b : AO3QueryBuilder) : AO3QueryBuilder :=
  { b with completion_status := CompletionStatus.onlyIncomplete }

/-- Setter AO3QueryBuilder::only_crossover. -/
def AO3QueryBuilder.only_crossover (b : AO3QueryBuilder) : AO3QueryBuilder :=
  { b with crossover_status := CrossoverStatus.onlyCrossover }

/-- Setter AO3QueryBuilder::ignore_crossover_status. -/
def AO3QueryBuilder.ignore_crossover_status (b : AO3QueryBuilder) : AO3QueryBuilder :=
  { b with crossover_status := CrossoverStatus.ignore }

/-- Setter AO3QueryBuilder::only_non_crossover. -/
def AO3QueryBuilder.only_non_crossover (b : AO3QueryBuilder) : AO3QueryBuilder :=
  { b with crossover_status := CrossoverStatus.onlyNonCrossover }

/-- Setter AO3QueryBuilder::single_chapter. -/
def AO3QueryBuilder.single_chapter (b : AO3QueryBuilder) (v : Bool) : AO3QueryBuilder :=
  { b with is_single_chapter := v }

/-- Setter AO3QueryBuilder::set_word_count. -/
def AO3QueryBuilder.set_word_count (b : AO3QueryBuilder) (word_count : NumericalValueRange) :
    AO3QueryBuilder :=
  { b with word_count := word_count }

/-- Setter AO3QueryBuilder::set_fandoms. -/
def AO3QueryBuilder.set_fandoms (b : AO3QueryBuilder) (fandoms : List String) : AO3QueryBuilder :=
  { b with fandoms := fandoms }

/-- Setter AO3QueryBuilder::push_fandom. -/
def AO3QueryBuilder.push_fandom (b : AO3QueryBuilder) (fandom : String) : AO3QueryBuilder :=
  { b with fandoms := b.fandoms ++ [fandom] }

/-- Setter AO3QueryBuilder::set_rating. -/
def AO3QueryBuilder.set_rating (b : AO3QueryBuilder) (rating : Rating) : AO3QueryBuilder :=
  { b with rating := rating }

/-- Setter AO3QueryBuilder::set_archive_warnings. -/
def AO3QueryBuilder.set_archive_warnings (b : AO3QueryBuilder)
    (archive_warnings : List ArchiveWarning) : AO3QueryBuilder :=
  { b with archive_warnings := archive_warnings }

/-- Setter AO3QueryBuilder::add_archive_warning. -/
def AO3QueryBuilder.add_archive_warning (b : AO3QueryBuilder)
    (archive_warning : ArchiveWarning) : AO3QueryBuilder :=
  { b with archive_warnings := b.archive_warnings ++ [archive_warning] }

/-- Setter AO3QueryBuilder::set_categories. -/
def AO3QueryBuilder.set_categories (b : AO3QueryBuilder) (categories : List Category) :
    AO3QueryBuilder :=
  { b with categories := categories }

/-- Setter AO3QueryBuilder::push_category. -/
def AO3QueryBuilder.push_category (b : AO3QueryBuilder) (category : Category) : AO3QueryBuilder :=
  { b with categories := b.categories ++ [category] }

/-- Setter AO3QueryBuilder::set_characters. -/
def AO3QueryBuilder.set_characters (b : AO3QueryBuilder) (characters : List String) :
    AO3QueryBuilder :=
  { b with characters := characters }

/-- Setter AO3QueryBuilder::push_character. -/
def AO3QueryBuilder.push_character (b : AO3QueryBuilder) (character : String) : AO3QueryBuilder :=
  { b with characters := b.characters ++ [character] }

/-- Setter AO3QueryBuilder::set_relationships. -/
def AO3QueryBuilder.set_relationships (b : AO3QueryBuilder) (relationships : List String) :
    AO3QueryBuilder :=
  { b with relationships := relationships }

/-- Setter AO3QueryBuilder::push_relationship. -/
def AO3QueryBuilder.push_relationship (b : AO3QueryBuilder) (relationship : String) :
    AO3QueryBuilder :=
  { b with relationships := b.relationships ++ [relationship] }

/-- Setter AO3QueryBuilder::set_additional_tags. -/
def AO3QueryBuilder.set_additional_tags (b : AO3QueryBuilder) (additional_tags : List String) :
    AO3QueryBuilder :=
  { b with additional_tags := additional_tags }

/-- Setter AO3QueryBuilder::push_additional_tag. -/
def AO3QueryBuilder.push_additional_tag (b : AO3QueryBuilder) (additional_tag : String) :
    AO3QueryBuilder :=
  { b with additional_tags := b.additional_tags ++ [additional_tag] }

/-- Setter AO3QueryBuilder::set_hits. -/
def AO3QueryBuilder.set_hits (b : AO3QueryBuilder) (hits : NumericalValueRange) :
    AO3QueryBuilder :=
  { b with hits := hits }

/-- Setter AO3QueryBuilder::set_kudos. -/
def AO3QueryBuilder.set_kudos (b : AO3QueryBuilder) (kudos : NumericalValueRange) :
    AO3QueryBuilder :=
  { b with kudos := kudos }

/-- Setter AO3QueryBuilder::set_comments. -/
def AO3QueryBuilder.set_comments (b : AO3QueryBuilder) (comments : NumericalValueRange) :
    AO3QueryBuilder :=
  { b with comments := comments }

/-- Setter AO3QueryBuilder::set_bookmarks. -/
def AO3QueryBuilder.set_bookmarks (b : AO3QueryBuilder) (bookmarks : NumericalValueRange) :
    AO3QueryBuilder :=
  { b with bookmarks := bookmarks }

/-- Setter AO3QueryBuilder::set_sort_by. -/
def AO3QueryBuilder.set_sort_by (b : AO3QueryBuilder) (sort_by : SortBy) : AO3QueryBuilder :=
  { b with sort_by := sort_by }

/-- Setter AO3QueryBuilder::set_sort_direction. -/
def AO3QueryBuilder.set_sort_direction (b : AO3QueryBuilder) (sort_direction : SortDirection) :
    AO3QueryBuilder :=
  { b with sort_direction := sort_direction }

/-- Local function add_delim inside create_url (src/query.rs lines 814-819): the
    accumulator pairs the string built so far with the is_first flag. -/
def add_delim : String × Bool → String × Bool
  | (q, is_first) => (if !is_first then q ++ "&" else q, false)

/-- One emission step of create_url: add_delim followed by push_str of the field
    fragment. -/
def pushField (acc : String × Bool) (s : String) : String × Bool :=
  let a := add_delim acc
  (a.1 ++ s, a.2)

/-- AO3QueryBuilder::create_url (src/query.rs lines 811-926), ported step by step:
    the same fixed sequence of conditional emissions over the (string, is_first)
    state, with the two multi-select fields iterating over their rendered
    elements and the two sort fields emitted unconditionally at the end. -/
def AO3QueryBuilder.create_url (b : AO3QueryBuilder) : String :=
  let a : String × Bool := (BASE_AO3_SEARCH_URL, true)
  let a := if String.is_included b.any_field then
    pushField a ("work_search[query]=" ++ String.to_query_value b.any_field) else a
  let a := if String.is_included b.title then
    pushField a ("work_search[title]=" ++ String.to_query_value b.title) else a
  let a := if MultiString.is_included b.authors then
    pushField a ("work_search[authors]=" ++ MultiString.to_query_value b.authors) else a
  let a := if DateRange.is_included b.date then
    pushField a ("work_search[revised_at]=" ++ DateRange.to_query_value b.date) else a
  let a := if CompletionStatus.is_included b.completion_status then
    pushField a ("work_search[complete]=" ++ CompletionStatus.to_query_value b.completion_status)
    else a
  let a := if CrossoverStatus.is_included b.crossover_status then
    pushField a ("work_search[crossover]=" ++ CrossoverStatus.to_query_value b.crossover_status)
    else a
  let a := if Bool.is_included b.is_single_chapter then
    pushField a ("work_search[single_chapter]=" ++ Bool.to_query_value b.is_single_chapter) else a
  let a := if NumericalValueRange.is_included b.word_count then
    pushField a ("work_search[word_count]=" ++ NumericalValueRange.to_query_value b.word_count)
    else a
  let a := if MultiString.is_included b.fandoms then
    pushField a ("work_search[fandom_names]=" ++ MultiString.to_query_value b.fandoms) else a
  let a := if Rating.is_included b.rating then
    pushField a ("work_search[rating_ids]=" ++ Rating.to_query_value b.rating) else a
  let a := if MultiSelect.is_included b.archive_warnings then
    (MultiSelect.to_query_value ArchiveWarning.to_query_value b.archive_warnings).foldl
      (fun acc aw => pushField acc ("work_search[archive_warning_ids][]=" ++ aw)) a
    else a
  let a := if MultiSelect.is_included b.categories then
    (MultiSelect.to_query_value Category.to_query_value b.categories).foldl
      (fun acc cat => pushField acc ("work_search[category_ids][]=" ++ cat)) a
    else a
  let a := if MultiString.is_included b.characters then
    pushField a ("work_search[character_names]=" ++ MultiString.to_query_value b.characters) else a
  let a := if MultiString.is_included b.relationships then
    pushField a ("work_search[relationship_name]=" ++ MultiString.to_query_value b.relationships)
    else a
  let a := if MultiString.is_included b.additional_tags then
    pushField a ("work_search[freeform_names]=" ++ MultiString.to_query_value b.additional_tags)
    else a
  let a := if NumericalValueRange.is_included b.hits then
    pushField a ("work_search[hits]=" ++ NumericalValueRange.to_query_value b.hits) else a
  let a := if NumericalValueRange.is_included b.kudos then
    pushField a ("work_search[kudos_count]=" ++ NumericalValueRange.to_query_value b.kudos) else a
  let a := if NumericalValueRange.is_included b.comments then
    pushField a ("work_search[commets_count]=" ++ NumericalValueRange.to_query_value b.comments)
    else a
  let a := if NumericalValueRange.is_included b.bookmarks then
    pushField a ("work_search[bookmarks_count]=" ++ NumericalValueRange.to_query_value b.bookmarks)
    else a
  let a := pushField a ("work_search[sort_column]=" ++ SortBy.to_query_value b.sort_by)
  let a := pushField a ("work_search[sort_direction]=" ++ SortDirection.to_query_value b.sort_direction)
  a.1

/-- String fragment of one emitted parameter: the wire prefix followed by the
    rendered value, exactly as create_url pushes it. -/
def fragStr (p : String × String) : String :=
  p.1 ++ p.2

/-- Tail form of the delimiter discipline: every fragment preceded by one
    ampersand. -/
def ampAll : List String → String
  | [] => ""
  | x :: t => "&" ++ (x ++ ampAll t)

/-- Join a fragment list with a single ampersand between consecutive fragments,
    never leading or trailing. -/
def joinAmp : List String → String
  | [] => ""
  | [x] => x
  | x :: y :: t => x ++ ("&" ++ joinAmp (y :: t))

/-- Folding the emission step over a whole fragment list. -/
def pushAll (acc : String × Bool) (l : List String) : String × Bool :=
  l.foldl pushField acc

/-- Declarative view of create_url: the list of parameters it emits, in its fixed
    field order, each as a (wire prefix, rendered value) pair. The equivalence
    with the imperative create_url is proved in create_url_eq_joinAmp. -/
def queryParams (b : AO3QueryBuilder) : List (String × String) :=
  (if String.is_included b.any_field then
    [("work_search[query]=", String.to_query_value b.any_field)] else [])
  ++ (if String.is_included b.title then
    [("work_search[title]=", String.to_query_value b.title)] else [])
  ++ (if MultiString.is_included b.authors then
    [("work_search[authors]=", MultiString.to_query_value b.authors)] else [])
  ++ (if DateRange.is_included b.date then
    [("work_search[revised_at]=", DateRange.to_query_value b.date)] else [])
  ++ (if CompletionStatus.is_included b.completion_status then
    [("work_search[complete]=", CompletionStatus.to_query_value b.completion_status)] else [])
  ++ (if CrossoverStatus.is_included b.crossover_status then
    [("work_search[crossover]=", CrossoverStatus.to_query_value b.crossover_status)] else [])
  ++ (if Bool.is_included b.is_single_chapter then
    [("work_search[single_chapter]=", Bool.to_query_value b.is_single_chapter)] else [])
  ++ (if NumericalValueRange.is_included b.word_count then
    [("work_search[word_count]=", NumericalValueRange.to_query_value b.word_count)] else [])
  ++ (if MultiString.is_included b.fandoms then
    [("work_search[fandom_names]=", MultiString.to_query_value b.fandoms)] else [])
  ++ (if Rating.is_included b.rating then
    [("work_search[rating_ids]=", Rating.to_query_value b.rating)] else [])
  ++ (if MultiSelect.is_included b.archive_warnings then
    b.archive_warnings.map (fun w => ("work_search[archive_warning_ids][]=",
      ArchiveWarning.to_query_value w)) else [])
  ++ (if MultiSelect.is_included b.categories then
    b.categories.map (fun c => ("work_search[category_ids][]=",
      Category.to_query_value c)) else [])
  ++ (if MultiString.is_included b.characters then
    [("work_search[character_names]=", MultiString.to_query_value b.characters)] else [])
  ++ (if MultiString.is_included b.relationships then
    [("work_search[relationship_name]=", MultiString.to_query_value b.relationships)] else [])
  ++ (if MultiString.is_included b.additional_tags then
    [("work_search[freeform_names]=", MultiString.to_query_value b.additional_tags)] else [])
  ++ (if NumericalValueRange.is_included b.hits then
    [("work_search[hits]=", NumericalValueRange.to_query_value b.hits)] else [])
  ++ (if NumericalValueRange.is_included b.kudos then
    [("work_search[kudos_count]=", NumericalValueRange.to_query_value b.kudos)] else [])
  ++ (if NumericalValueRange.is_included b.comments then
    [("work_search[commets_count]=", NumericalValueRange.to_query_value b.comments)] else [])
  ++ (if NumericalValueRange.is_included b.bookmarks then
    [("work_search[bookmarks_count]=", NumericalValueRange.to_query_value b.bookmarks)] else [])
  ++ [("work_search[sort_column]=", SortBy.to_query_value b.sort_by),
      ("work_search[sort_direction]=", SortDirection.to_query_value b.sort_direction)]

theorem pushAll_one (acc : String × Bool) (f : String) :
    pushAll acc [f] = pushField acc f :=
  rfl

theorem pushAll_append (acc : String × Bool) (l1 l2 : List String) :
    pushAll acc (l1 ++ l2) = pushAll (pushAll acc l1) l2 :=
  List.foldl_append _ _ _ _

theorem ite_pushAll (acc : String × Bool) (c : Bool) (l : List String) :
    (if c then pushAll acc l else acc) = pushAll acc (if c then l else []) := by
  cases c <;> rfl

theorem foldl_pushField_map (acc : String × Bool) (pfx : String) (vs : List String) :
    vs.foldl (fun a v => pushField a (pfx ++ v)) acc = pushAll acc (vs.map (fun v => pfx ++ v)) := by
  simp [pushAll, List.foldl_map]

theorem pushAll_false (s : String) (l : List String) :
    pushAll (s, false) l = (s ++ ampAll l, false) := by
  induction l generalizing s with
  | nil => simp [pushAll, ampAll, String.append_empty]
  | cons x t ih =>
    show pushAll (pushField (s, false) x) t = _
    rw [show pushField (s, false) x = ((s ++ "&") ++ x, false) from rfl, ih]
    simp [ampAll, String.append_assoc]

theorem joinAmp_eq_ampAll (x : String) (t : List String) :
    joinAmp (x :: t) = x ++ ampAll t := by
  induction t generalizing x with
  | nil => simp [joinAmp, ampAll, String.append_empty]
  | cons y t ih => rw [joinAmp, ih, ampAll]

theorem pushAll_true_fst (s : String) (l : List String) :
    (pushAll (s, true) l).1 = s ++ joinAmp l := by
  cases l with
  | nil => simp [pushAll, joinAmp, String.append_empty]
  | cons x t =>
    show (pushAll (pushField (s, true) x) t).1 = _
    rw [show pushField (s, true) x = (s ++ x, false) from rfl, pushAll_false,
      joinAmp_eq_ampAll]
    simp [String.append_assoc]

theorem map_fragStr_ite_single (c : Bool) (k v : String) :
    (if c then [(k, v)] else []).map fragStr = (if c then [k ++ v] else []) := by
  cases c <;> rfl

theorem map_fragStr_ite_map (c : Bool) (k : String) (f : α → String) (l : List α) :
    (if c then l.map (fun x => (k, f x)) else []).map fragStr
      = (if c then l.map (fun x => k ++ f x) else []) := by
  cases c <;> simp [fragStr, List.map_map, Function.comp]

/-- Bridge between the imperative create_url and its declarative view: the
    rendered URL is the base search URL followed by the emitted fragments in
    fixed order, joined by single ampersands. -/
theorem create_url_pushAll (b : AO3QueryBuilder) :
    b.create_url = (pushAll (BASE_AO3_SEARCH_URL, true) ((queryParams b).map fragStr)).1 := by
  simp only [AO3QueryBuilder.create_url, foldl_pushField_map]
  simp only [← pushAll_one]
  simp only [ite_pushAll]
  simp only [← pushAll_append]
  simp only [queryParams, List.map_append, map_fragStr_ite_single, map_fragStr_ite_map,
    MultiSelect.to_query_value, List.map_map, Function.comp_def, List.map_cons, List.map_nil,
    fragStr, List.singleton_append, List.append_assoc]

/-- Characterization of the rendered URL through the declarative parameter list. -/
theorem create_url_eq_joinAmp (b : AO3QueryBuilder) :
    b.create_url = BASE_AO3_SEARCH_URL ++ joinAmp ((queryParams b).map fragStr) := by
  rw [create_url_pushAll, pushAll_true_fst]

/-- Number of parameters in a parameter list that carry the given wire prefix. -/
def keyCount (ps : List (String × String)) (k : String) : Nat :=
  ps.countP (fun q => q.1 == k)

theorem keyCount_append (l1 l2 : List (String × String)) (k : String) :
    keyCount (l1 ++ l2) k = keyCount l1 k + keyCount l2 k :=
  List.countP_append _ _ _

theorem keyCount_ite (c : Bool) (l : List (String × String)) (k : String) :
    keyCount (if c then l else []) k = if c then keyCount l k else 0 := by
  cases c <;> simp [keyCount]

theorem keyCount_single (k1 v k : String) :
    keyCount [(k1, v)] k = if k1 == k then 1 else 0 := by
  simp [keyCount, List.countP_cons, List.countP_nil]

theorem keyCount_map (k1 : String) (f : α → String) (l : List α) (k : String) :
    keyCount (l.map (fun x => (k1, f x))) k = if k1 == k then l.length else 0 := by
  cases h : k1 == k <;>
    simp [keyCount, List.countP_map, Function.comp_def, h]

theorem ite_isEmpty_length (l : List α) :
    (if !l.isEmpty then l.length else 0) = l.length := by
  cases l <;> simp

/- Part 2: src/parse.rs. The markup parser (the tl crate) is the external
   collaborator that turns HTML text into a navigable node tree; its output is
   modelled directly as a rose tree of tag and text nodes, with attributes as an
   ordered (name, value) list. tl attributes may in general lack a value; the
   source reads them through Option::flatten, which collapses a valueless
   attribute to an absent one, so modelling every attribute with a value loses
   nothing the source can observe. -/

/-- Node of the parsed HTML document: a tag with attributes and children, or a
    text node. -/
inductive HNode where
  | text : String → HNode
  | tag : String → List (String × String) → List HNode → HNode

/-- Attribute lookup on a node, as the source performs it through
    as_tag()/attributes().get(..).flatten(): none on a text node or an absent
    attribute, the first binding otherwise. -/
def getAttr (n : HNode) (name : String) : Option String :=
  match n with
  | .text _ => Option.none
  | .tag _ ats _ => (ats.find? (fun p => p.1 == name)).map (fun p => p.2)

mutual
/-- Models tl::Node::find_node: depth-first preorder search over the strict
    descendants of a node (each child is tested before its own subtree), first
    match wins. -/
def find_node (p : HNode → Bool) : HNode → Option HNode
  | .text _ => Option.none
  | .tag _ _ ch => find_nodeL p ch

def find_nodeL (p : HNode → Bool) : List HNode → Option HNode
  | [] => Option.none
  | n :: ns =>
    if p n then some n
    else
      match find_node p n with
      | some r => some r
      | Option.none => find_nodeL p ns
end

mutual
/-- Function get_all_nodes from src/parse.rs lines 61-72: every strict descendant
    of the node in preorder. -/
def get_all_nodes : HNode → List HNode
  | .text _ => []
  | .tag _ _ ch => get_all_nodesL ch

def get_all_nodesL : List HNode → List HNode
  | [] => []
  | n :: ns => n :: (get_all_nodes n ++ get_all_nodesL ns)
end

mutual
/-- Models tl::Node::inner_text: concatenated text content of the subtree. -/
def inner_text : HNode → String
  | .text s => s
  | .tag _ _ ch => inner_textL ch

def inner_textL : List HNode → String
  | [] => ""
  | n :: ns => inner_text n ++ inner_textL ns
end

/-- Enum ParsingError from src/parse.rs lines 3-6; CouldNotFind is its only
    variant. -/
inductive ParsingError where
  | couldNotFind (what : String)
deriving DecidableEq

/-- Function search_by_attrib from src/parse.rs lines 41-59: first descendant
    whose attribute equals the value, or CouldNotFind named after the attribute. -/
def search_by_attrib (node : HNode) (attrib : String) (value : String) :
    Except ParsingError HNode :=
  match find_node (fun n => getAttr n attrib == some value) node with
  | some m => Except.ok m
  | Option.none => Except.error (ParsingError.couldNotFind attrib)

/-- Function search_all_by_attrib from src/parse.rs lines 74-90: all descendants
    whose attribute equals the value; infallible (always Ok). -/
def search_all_by_attrib (node : HNode) (attrib : String) (value : String) :
    Except ParsingError (List HNode) :=
  Except.ok ((get_all_nodes node).filter (fun n => getAttr n attrib == some value))

/-- Struct AO3Work from src/models.rs lines 25-36, restricted to the fields the
    extractor populates (the chrono date field, the completion/crossover flags,
    the word count and the private rating are left at their defaults by
    parse_search_single_work and the date is not modelled). -/
structure AO3Work where
  id : String := ""
  url : String := ""
  title : String := ""
  authors : List String := []
  is_complete : Bool := false
  is_crossover : Bool := false
  word_count : Nat := 0
  fandoms : List String := []
  rating : Option Rating := Option.none
deriving DecidableEq

/-- Outcome of extraction code that may also panic: Ok value, a ParsingError
    propagated through the question-mark operator, or a Rust panic (unwrap of
    None). -/
inductive PRes (α : Type) where
  | ok : α → PRes α
  | err : ParsingError → PRes α
  | panicked : PRes α
deriving DecidableEq

/-- Models Rust str::replace("work_", "") as used on the record id
    (src/parse.rs line 104): remove every non-overlapping occurrence of the
    pattern, scanning left to right. -/
def remove_work_marker_chars : List Char → List Char
  | 'w' :: 'o' :: 'r' :: 'k' :: '_' :: rest => remove_work_marker_chars rest
  | c :: rest => c :: remove_work_marker_chars rest
  | [] => []

/-- String wrapper for remove_work_marker. -/
def String.remove_work_marker (s : String) : String :=
  String.mk (remove_work_marker_chars s.data)

/-- Function parse_search_single_work from src/parse.rs lines 92-136, including
    its two unwraps: a non-tag record node or a record node without an id
    attribute panics (unwrap of None); every other failure flows through the
    question-mark operator as a ParsingError. The container classed
    "fandoms heading" is looked up twice, once for the author scan and once for
    the fandom scan, exactly as in the source. -/
def parse_search_single_work (node : HNode) : PRes AO3Work :=
  match node with
  | .text _ => PRes.panicked
  | .tag nm ats ch =>
    match getAttr (.tag nm ats ch) "id" with
    | Option.none => PRes.panicked
    | some raw_id =>
      let id := String.remove_work_marker raw_id
      match search_by_attrib (.tag nm ats ch) "href" ("/works/" ++ id) with
      | Except.error e => PRes.err e
      | Except.ok title_node =>
        let title := inner_text title_node
        match search_by_attrib (.tag nm ats ch) "class" "fandoms heading" with
        | Except.error e => PRes.err e
        | Except.ok author_container =>
          match search_all_by_attrib author_container "rel" "author" with
          | Except.error e => PRes.err e
          | Except.ok author_nodes =>
            let authors := author_nodes.map inner_text
            match search_by_attrib (.tag nm ats ch) "class" "fandoms heading" with
            | Except.error e => PRes.err e
            | Except.ok fandom_container =>
              match search_all_by_attrib fandom_container "class" "tag" with
              | Except.error e => PRes.err e
              | Except.ok fandom_nodes =>
                let fandoms := fandom_nodes.map inner_text
                PRes.ok { id := id, title := title, authors := authors, fandoms := fandoms }

/-- Models tl::VDom::query_selector for the fixed selector "[role=article]"
    (src/parse.rs lines 28-30). In the tl crate query_selector returns None
    exactly when the selector string cannot be parsed as a selector;
    "[role=article]" is a valid attribute selector, so for every document the
    result is Some of the (possibly empty) list of matching nodes in document
    order. The document is modelled as the list of top-level nodes of the
    parsed DOM. -/
def works_query_selector (doc : List HNode) : Option (List HNode) :=
  some ((get_all_nodesL doc).filter (fun n => getAttr n "role" == some "article"))

/-- Record loop of parse_search (src/parse.rs lines 31-37): each record node is
    extracted with parse_search_single_work and the question-mark operator
    aborts the whole loop on the first record that fails (or propagates a
    panic); the results of the records before it are discarded. -/
def parse_works_loop : List HNode → PRes (List AO3Work)
  | [] => PRes.ok []
  | n :: ns =>
    match parse_search_single_work n with
    | PRes.panicked => PRes.panicked
    | PRes.err e => PRes.err e
    | PRes.ok w =>
      match parse_works_loop ns with
      | PRes.panicked => PRes.panicked
      | PRes.err e => PRes.err e
      | PRes.ok ws => PRes.ok (w :: ws)

/-- Function parse_search from src/parse.rs lines 22-39: select the record nodes
    with the article-role selector (ok_or maps a None selector result to
    CouldNotFind "the list of works.") and run the record loop over them. -/
def parse_search (doc : List HNode) : PRes (List AO3Work) :=
  match works_query_selector doc with
  | Option.none => PRes.err (ParsingError.couldNotFind "the list of works.")
  | some articles => parse_works_loop articles

theorem keyCount_nil (k : String) : keyCount [] k = 0 :=
  rfl

theorem keyCount_cons (k1 v k : String) (l : List (String × String)) :
    keyCount ((k1, v) :: l) k = keyCount l k + (if k1 == k then 1 else 0) := by
  simp [keyCount, List.countP_cons]

theorem keyCount_ite_nil_left (c : Prop) [Decidable c] (l : List (String × String)) (k : String) :
    keyCount (if c then [] else l) k = if c then 0 else keyCount l k := by
  split <;> rfl

theorem ite_eq_nil_length [DecidableEq α] (l : List α) :
    (if l = [] then 0 else l.length) = l.length := by
  cases l <;> simp

theorem keyCount_qp_query (b : AO3QueryBuilder) :
    keyCount (queryParams b) "work_search[query]="
      = if String.is_included b.any_field then 1 else 0 := by
  simp [queryParams, keyCount_append, keyCount_ite, keyCount_single, keyCount_cons,
    keyCount_nil, keyCount_map]

theorem keyCount_qp_title (b : AO3QueryBuilder) :
    keyCount (queryParams b) "work_search[title]="
      = if String.is_included b.title then 1 else 0 := by
  simp [queryParams, keyCount_append, keyCount_ite, keyCount_single, keyCount_cons,
    keyCount_nil, keyCount_map]

theorem keyCount_qp_authors (b : AO3QueryBuilder) :
    keyCount (queryParams b) "work_search[authors]="
      = if MultiString.is_included b.authors then 1 else 0 := by
  simp [queryParams, keyCount_append, keyCount_ite, keyCount_single, keyCount_cons,
    keyCount_nil, keyCount_map]

theorem keyCount_qp_revised_at (b : AO3QueryBuilder) :
    keyCount (queryParams b) "work_search[revised_at]="
      = if DateRange.is_included b.date then 1 else 0 := by
  simp [queryParams, keyCount_append, keyCount_ite, keyCount_single, keyCount_cons,
    keyCount_nil, keyCount_map]

theorem keyCount_qp_complete (b : AO3QueryBuilder) :
    keyCount (queryParams b) "work_search[complete]="
      = if CompletionStatus.is_included b.completion_status then 1 else 0 := by
  simp [queryParams, keyCount_append, keyCount_ite, keyCount_single, keyCount_cons,
    keyCount_nil, keyCount_map]

theorem keyCount_qp_crossover (b : AO3QueryBuilder) :
    keyCount (queryParams b) "work_search[crossover]="
      = if CrossoverStatus.is_included b.crossover_status then 1 else 0 := by
  simp [queryParams, keyCount_append, keyCount_ite, keyCount_single, keyCount_cons,
    keyCount_nil, keyCount_map]

theorem keyCount_qp_single_chapter (b : AO3QueryBuilder) :
    keyCount (queryParams b) "work_search[single_chapter]=" = 1 := by
  simp [queryParams, keyCount_append, keyCount_ite, keyCount_single, keyCount_cons,
    keyCount_nil, keyCount_map, Bool.is_included]

theorem keyCount_qp_word_count (b : AO3QueryBuilder) :
    keyCount (queryParams b) "work_search[word_count]="
      = if NumericalValueRange.is_included b.word_count then 1 else 0 := by
  simp [queryParams, keyCount_append, keyCount_ite, keyCount_single, keyCount_cons,
    keyCount_nil, keyCount_map]

theorem keyCount_qp_fandom_names (b : AO3QueryBuilder) :
    keyCount (queryParams b) "work_search[fandom_names]="
      = if MultiString.is_included b.fandoms then 1 else 0 := by
  simp [queryParams, keyCount_append, keyCount_ite, keyCount_single, keyCount_cons,
    keyCount_nil, keyCount_map]

theorem keyCount_qp_rating_ids (b : AO3QueryBuilder) :
    keyCount (queryParams b) "work_search[rating_ids]="
      = if Rating.is_included b.rating then 1 else 0 := by
  simp [queryParams, keyCount_append, keyCount_ite, keyCount_single, keyCount_cons,
    keyCount_nil, keyCount_map]

theorem keyCount_qp_archive_warnings (b : AO3QueryBuilder) :
    keyCount (queryParams b) "work_search[archive_warning_ids][]="
      = b.archive_warnings.length := by
  simp [queryParams, keyCount_append, keyCount_ite, keyCount_single, keyCount_cons,
    keyCount_nil, keyCount_map, MultiSelect.is_included, keyCount_ite_nil_left,
    ite_eq_nil_length]

theorem keyCount_qp_categories (b : AO3QueryBuilder) :
    keyCount (queryParams b) "work_search[category_ids][]="
      = b.categories.length := by
  simp [queryParams, keyCount_append, keyCount_ite, keyCount_single, keyCount_cons,
    keyCount_nil, keyCount_map, MultiSelect.is_included, keyCount_ite_nil_left,
    ite_eq_nil_length]

theorem keyCount_qp_character_names (b : AO3QueryBuilder) :
    keyCount (queryParams b) "work_search[character_names]="
      = if MultiString.is_included b.characters then 1 else 0 := by
  simp [queryParams, keyCount_append, keyCount_ite, keyCount_single, keyCount_cons,
    keyCount_nil, keyCount_map]

theorem keyCount_qp_relationship_name (b : AO3QueryBuilder) :
    keyCount (queryParams b) "work_search[relationship_name]="
      = if MultiString.is_included b.relationships then 1 else 0 := by
  simp [queryParams, keyCount_append, keyCount_ite, keyCount_single, keyCount_cons,
    keyCount_nil, keyCount_map]

theorem keyCount_qp_freeform_names (b : AO3QueryBuilder) :
    keyCount (queryParams b) "work_search[freeform_names]="
      = if MultiString.is_included b.additional_tags then 1 else 0 := by
  simp [queryParams, keyCount_append, keyCount_ite, keyCount_single, keyCount_cons,
    keyCount_nil, keyCount_map]

theorem keyCount_qp_hits (b : AO3QueryBuilder) :
    keyCount (queryParams b) "work_search[hits]="
      = if NumericalValueRange.is_included b.hits then 1 else 0 := by
  simp [queryParams, keyCount_append, keyCount_ite, keyCount_single, keyCount_cons,
    keyCount_nil, keyCount_map]

theorem keyCount_qp_kudos_count (b : AO3QueryBuilder) :
    keyCount (queryParams b) "work_search[kudos_count]="
      = if NumericalValueRange.is_included b.kudos then 1 else 0 := by
  simp [queryParams, keyCount_append, keyCount_ite, keyCount_single, keyCount_cons,
    keyCount_nil, keyCount_map]

theorem keyCount_qp_commets_count (b : AO3QueryBuilder) :
    keyCount (queryParams b) "work_search[commets_count]="
      = if NumericalValueRange.is_included b.comments then 1 else 0 := by
  simp [queryParams, keyCount_append, keyCount_ite, keyCount_single, keyCount_cons,
    keyCount_nil, keyCount_map]

theorem keyCount_qp_bookmarks_count (b : AO3QueryBuilder) :
    keyCount (queryParams b) "work_search[bookmarks_count]="
      = if NumericalValueRange.is_included b.bookmarks then 1 else 0 := by
  simp [queryParams, keyCount_append, keyCount_ite, keyCount_single, keyCount_cons,
    keyCount_nil, keyCount_map]

theorem keyCount_qp_sort_column (b : AO3QueryBuilder) :
    keyCount (queryParams b) "work_search[sort_column]=" = 1 := by
  simp [queryParams, keyCount_append, keyCount_ite, keyCount_single, keyCount_cons,
    keyCount_nil, keyCount_map]

theorem keyCount_qp_sort_direction (b : AO3QueryBuilder) :
    keyCount (queryParams b) "work_search[sort_direction]=" = 1 := by
  simp [queryParams, keyCount_append, keyCount_ite, keyCount_single, keyCount_cons,
    keyCount_nil, keyCount_map]

theorem mem_seg_fst {c : Bool} {k v : String} {p : String × String}
    (h : p ∈ (if c then [(k, v)] else [])) : p.1 = k := by
  cases c
  · simp at h
  · simp at h
    rw [h]

theorem mem_map_seg_fst {α : Type} {c : Bool} {k : String} {f : α → String} {l : List α}
    {p : String × String} (h : p ∈ (if c then l.map (fun w => (k, f w)) else [])) :
    p.1 = k := by
  cases c
  · simp at h
  · simp at h
    obtain ⟨w, _, hw⟩ := h
    rw [← hw]

/-- The twenty-one wire keys of src/query.rs, written as the full emitted prefix
    of each parameter. -/
def wireKeyList : List String :=
  ["work_search[query]=", "work_search[title]=", "work_search[authors]=",
   "work_search[revised_at]=", "work_search[complete]=", "work_search[crossover]=",
   "work_search[single_chapter]=", "work_search[word_count]=", "work_search[fandom_names]=",
   "work_search[rating_ids]=", "work_search[archive_warning_ids][]=",
   "work_search[category_ids][]=", "work_search[character_names]=",
   "work_search[relationship_name]=", "work_search[freeform_names]=",
   "work_search[hits]=", "work_search[kudos_count]=", "work_search[commets_count]=",
   "work_search[bookmarks_count]=", "work_search[sort_column]=", "work_search[sort_direction]="]

theorem filter_fst_ite_single (c : Bool) (k1 v k : String) (h : (k1 == k) = false) :
    (if c then [(k1, v)] else []).filter (fun p => p.1 == k) = [] := by
  cases c <;> simp [h]

theorem filter_fst_ite_map_ne {α : Type} (c : Bool) (k1 k : String) (f : α → String) (l : List α)
    (h : (k1 == k) = false) :
    (if c then l.map (fun w => (k1, f w)) else []).filter (fun p => p.1 == k) = [] := by
  have hne : ¬ k1 = k := by simpa using h
  cases c
  · rfl
  · simp only [if_true]
    rw [List.filter_eq_nil_iff]
    intro a ha
    simp only [List.mem_map] at ha
    obtain ⟨w, _, hw⟩ := ha
    simp [← hw, hne]

theorem filter_fst_map_raw {α : Type} (k : String) (f : α → String) (l : List α) :
    (l.map (fun w => (k, f w))).filter (fun p => p.1 == k) = l.map (fun w => (k, f w)) := by
  induction l with
  | nil => rfl
  | cons a t ih => simp [ih]

theorem filter_fst_map_self {α : Type} (k : String) (f : α → String) (l : List α) :
    ((if MultiSelect.is_included l then l.map (fun w => (k, f w)) else []).filter
      (fun p => p.1 == k)) = l.map (fun w => (k, f w)) := by
  cases l with
  | nil => rfl
  | cons a t => simp [MultiSelect.is_included, filter_fst_map_raw]

theorem parse_works_loop_err (pre post : List HNode) (n : HNode) (e : ParsingError)
    (hpre : ∀ m ∈ pre, ∃ w, parse_search_single_work m = PRes.ok w)
    (hn : parse_search_single_work n = PRes.err e) :
    parse_works_loop (pre ++ n :: post) = PRes.err e := by
  induction pre with
  | nil => simp [parse_works_loop, hn]
  | cons a t ih =>
    obtain ⟨w, hw⟩ := hpre a (List.mem_cons_self a t)
    have ht := ih (fun m hm => hpre m (List.mem_cons_of_mem a hm))
    simp [parse_works_loop, hw, ht]

/-- Sample results page for the failure-isolation claim: two article-role record
    nodes; the first carries an id but no matching title link, the second is
    fully well formed. -/
def badArticle : HNode :=
  .tag "li" [("id", "work_1"), ("role", "article")]
    [.tag "div" [("class", "fandoms heading")] []]

/-- Well-formed record node on the same sample page. -/
def goodArticle : HNode :=
  .tag "li" [("id", "work_2"), ("role", "article")]
    [.tag "a" [("href", "/works/2")] [.text "Good Title"],
     .tag "div" [("class", "fandoms heading")]
       [.tag "a" [("rel", "author")] [.text "Author One"],
        .tag "a" [("class", "tag")] [.text "Fandom A"]]]

/-- The record that extraction of goodArticle alone produces. -/
def goodWork : AO3Work :=
  { id := "2", title := "Good Title", authors := ["Author One"], fandoms := ["Fandom A"] }

/-- The two-record sample page. -/
def c2doc : List HNode :=
  [.tag "html" [] [.tag "body" [] [badArticle, goodArticle]]]

/-- C1 counterexample: the freshly constructed descriptor leaves single_chapter
    at its neutral default false, yet the single_chapter key is emitted exactly
    once (with value 0) in the rendered query string, because the bool
    QueryValue is always included. -/
theorem c1_single_chapter_emitted_at_default :
    AO3QueryBuilder.new.is_single_chapter = false
    ∧ keyCount (queryParams AO3QueryBuilder.new) "work_search[single_chapter]=" = 1
    ∧ AO3QueryBuilder.new.create_url
      = "https://archiveofourown.org/works/search?work_search[single_chapter]=0&work_search[sort_column]=_score&work_search[sort_direction]=desc" := by
  refine ⟨rfl, by decide, by decide⟩

/-- C1 (amended): omission invariant of query rendering for every field except
    the boolean: counting emitted parameters by wire key, a field left at its
    neutral default contributes no parameter and a field set to a non-neutral
    value contributes exactly one (one per element for the two repeated array
    keys), the two sort keys always contribute exactly one each, and the
    single_chapter key is always emitted exactly once, also when the field sits
    at its default false. -/
theorem c1_omission_invariant_amended (b : AO3QueryBuilder) :
    keyCount (queryParams b) "work_search[query]="
      = (if String.is_included b.any_field then 1 else 0)
    ∧ keyCount (queryParams b) "work_search[title]="
      = (if String.is_included b.title then 1 else 0)
    ∧ keyCount (queryParams b) "work_search[authors]="
      = (if MultiString.is_included b.authors then 1 else 0)
    ∧ keyCount (queryParams b) "work_search[revised_at]="
      = (if DateRange.is_included b.date then 1 else 0)
    ∧ keyCount (queryParams b) "work_search[complete]="
      = (if CompletionStatus.is_included b.completion_status then 1 else 0)
    ∧ keyCount (queryParams b) "work_search[crossover]="
      = (if CrossoverStatus.is_included b.crossover_status then 1 else 0)
    ∧ keyCount (queryParams b) "work_search[single_chapter]=" = 1
    ∧ keyCount (queryParams b) "work_search[word_count]="
      = (if NumericalValueRange.is_included b.word_count then 1 else 0)
    ∧ keyCount (queryParams b) "work_search[fandom_names]="
      = (if MultiString.is_included b.fandoms then 1 else 0)
    ∧ keyCount (queryParams b) "work_search[rating_ids]="
      = (if Rating.is_included b.rating then 1 else 0)
    ∧ keyCount (queryParams b) "work_search[archive_warning_ids][]="
      = b.archive_warnings.length
    ∧ keyCount (queryParams b) "work_search[category_ids][]=" = b.categories.length
    ∧ keyCount (queryParams b) "work_search[character_names]="
      = (if MultiString.is_included b.characters then 1 else 0)
    ∧ keyCount (queryParams b) "work_search[relationship_name]="
      = (if MultiString.is_included b.relationships then 1 else 0)
    ∧ keyCount (queryParams b) "work_search[freeform_names]="
      = (if MultiString.is_included b.additional_tags then 1 else 0)
    ∧ keyCount (queryParams b) "work_search[hits]="
      = (if NumericalValueRange.is_included b.hits then 1 else 0)
    ∧ keyCount (queryParams b) "work_search[kudos_count]="
      = (if NumericalValueRange.is_included b.kudos then 1 else 0)
    ∧ keyCount (queryParams b) "work_search[commets_count]="
      = (if NumericalValueRange.is_included b.comments then 1 else 0)
    ∧ keyCount (queryParams b) "work_search[bookmarks_count]="
      = (if NumericalValueRange.is_included b.bookmarks then 1 else 0)
    ∧ keyCount (queryParams b) "work_search[sort_column]=" = 1
    ∧ keyCount (queryParams b) "work_search[sort_direction]=" = 1 :=
  ⟨keyCount_qp_query b, keyCount_qp_title b, keyCount_qp_authors b, keyCount_qp_revised_at b,
   keyCount_qp_complete b, keyCount_qp_crossover b, keyCount_qp_single_chapter b,
   keyCount_qp_word_count b, keyCount_qp_fandom_names b, keyCount_qp_rating_ids b,
   keyCount_qp_archive_warnings b, keyCount_qp_categories b, keyCount_qp_character_names b,
   keyCount_qp_relationship_name b, keyCount_qp_freeform_names b, keyCount_qp_hits b,
   keyCount_qp_kudos_count b, keyCount_qp_commets_count b, keyCount_qp_bookmarks_count b,
   keyCount_qp_sort_column b, keyCount_qp_sort_direction b⟩

/-- Sample document with no article-role node anywhere. -/
def c3doc : List HNode :=
  [.tag "html" [] [.tag "body" [] [.text "no works here"]]]

/-- C3: on a document with no article-role node, parse_search returns the empty
    record list, not the structural CouldNotFind error the claim promises: the
    ok_or branch guarding the selector is dead because tl's query_selector only
    returns None for an unparseable selector string, and the fixed selector is
    valid. -/
theorem c3_missing_marker_returns_empty_list :
    parse_search c3doc = PRes.ok []
    ∧ works_query_selector c3doc = some []
    ∧ parse_search c3doc ≠ PRes.err (ParsingError.couldNotFind "the list of works.") := by
  refine ⟨by decide, rfl, by decide⟩

/-- C4: create_url renders the base URL followed by the emitted fields in the
    fixed declaration order joined by single ampersands (so the delimiter only
    stands between two emitted fields, never leading or trailing), the two sort
    parameters are always the final two emitted parameters, and setters on
    distinct fields commute, so the rendered string does not depend on the order
    the setters were called in. -/
theorem c4_fixed_order_and_delimiters (b : AO3QueryBuilder) (t : String) (r : Rating) :
    b.create_url = BASE_AO3_SEARCH_URL ++ joinAmp ((queryParams b).map fragStr)
    ∧ List.IsSuffix
        [("work_search[sort_column]=", SortBy.to_query_value b.sort_by),
         ("work_search[sort_direction]=", SortDirection.to_query_value b.sort_direction)]
        (queryParams b)
    ∧ (b.set_title t).set_rating r = (b.set_rating r).set_title t
    ∧ (∀ (d : DateRange) (k : NumericalValueRange),
        (b.set_date_range d).set_kudos k = (b.set_kudos k).set_date_range d)
    ∧ (∀ a : String, (b.only_completed).push_author a = (b.push_author a).only_completed) := by
  refine ⟨create_url_eq_joinAmp b, ?_, rfl, fun d k => rfl, fun a => rfl⟩
  simp only [queryParams]
  repeat refine List.IsSuffix.trans ?_ (List.suffix_append _ _)
  exact List.suffix_refl _

/-- C5: range rendering grammar: the spec's four concrete DateRange examples
    render exactly as promised, the same four shapes hold for every count and
    unit (Between carries no trailing "ago", unlike the other three), and
    NumericalValueRange renders the same grammar without a unit. -/
theorem c5_range_rendering_grammar :
    DateRange.to_query_value (DateRange.exactly 7 Period.days) = "7 days ago"
    ∧ DateRange.to_query_value (DateRange.lessThan 7 Period.days) = "< 7 days ago"
    ∧ DateRange.to_query_value (DateRange.moreThan 8 Period.weeks) = "> 8 weeks ago"
    ∧ DateRange.to_query_value (DateRange.between 13 21 Period.months) = "13-21 months"
    ∧ (∀ (n : Nat) (u : Period),
        DateRange.to_query_value (DateRange.exactly n u)
          = toString n ++ " " ++ u.displayStr ++ " ago"
        ∧ DateRange.to_query_value (DateRange.lessThan n u)
          = "< " ++ toString n ++ " " ++ u.displayStr ++ " ago"
        ∧ DateRange.to_query_value (DateRange.moreThan n u)
          = "> " ++ toString n ++ " " ++ u.displayStr ++ " ago")
    ∧ (∀ (lo hi : Nat) (u : Period),
        DateRange.to_query_value (DateRange.between lo hi u)
          = toString lo ++ "-" ++ toString hi ++ " " ++ u.displayStr)
    ∧ (∀ n : Nat,
        NumericalValueRange.to_query_value (NumericalValueRange.exactly n) = toString n
        ∧ NumericalValueRange.to_query_value (NumericalValueRange.moreThan n)
          = "> " ++ toString n
        ∧ NumericalValueRange.to_query_value (NumericalValueRange.lessThan n)
          = "< " ++ toString n)
    ∧ (∀ lo hi : Nat,
        NumericalValueRange.to_query_value (NumericalValueRange.between lo hi)
          = toString lo ++ "-" ++ toString hi) :=
  ⟨by decide, by decide, by decide, by decide, fun n u => ⟨rfl, rfl, rfl⟩,
   fun lo hi u => rfl, fun n => ⟨rfl, rfl, rfl⟩, fun lo hi => rfl⟩

/-- C2 counterexample: on the two-record sample page the first record fails (its
    title link is missing) while the second record would extract successfully on
    its own, yet parse_search aborts with the first record's error and yields no
    records at all; the page-level function takes no policy argument that could
    change this. -/
theorem c2_bad_record_aborts_page :
    (works_query_selector c2doc).map (fun l => l.map parse_search_single_work)
      = some [PRes.err (ParsingError.couldNotFind "href"), PRes.ok goodWork]
    ∧ parse_search c2doc = PRes.err (ParsingError.couldNotFind "href") := by
  refine ⟨by decide, by decide⟩

/-- C2 (amended): a single record failure aborts page-level extraction: whenever
    the selected record nodes split as pre ++ bad :: post with every node of pre
    extracting successfully and bad failing with error e, parse_search returns
    that error and none of the other records; the abort-on-first-failure policy
    is hardcoded, with no caller-configurable choice. -/
theorem c2_first_failure_aborts_amended (doc pre post : List HNode) (n : HNode)
    (e : ParsingError)
    (hsel : works_query_selector doc = some (pre ++ n :: post))
    (hpre : ∀ m ∈ pre, ∃ w, parse_search_single_work m = PRes.ok w)
    (hn : parse_search_single_work n = PRes.err e) :
    parse_search doc = PRes.err e := by
  simp [parse_search, hsel, parse_works_loop_err pre post n e hpre hn]

/-- C2 witness: the amended theorem applied to the concrete two-record page. -/
theorem c2_first_failure_aborts_witness :
    parse_search c2doc = PRes.err (ParsingError.couldNotFind "href") :=
  c2_first_failure_aborts_amended c2doc [] [goodArticle] badArticle
    (ParsingError.couldNotFind "href") rfl (by simp) (by decide)

/-- C6: every emitted parameter carries one of the twenty-one fixed wire keys
    (the comma-joined string lists under authors, fandom_names, character_names,
    relationship_name and freeform_names, with the misspelled commets_count kept
    as the wire key for comments), a present string-list field emits one single
    comma-joined parameter, and the two coded multi-selects emit exactly one
    archive_warning_ids[] or category_ids[] parameter per element, holding that
    element's code. -/
theorem c6_wire_keys_and_encodings (b : AO3QueryBuilder) :
    (∀ p ∈ queryParams b, p.1 ∈ wireKeyList)
    ∧ (MultiString.is_included b.authors = true →
        ("work_search[authors]=", String.intercalate "," b.authors) ∈ queryParams b)
    ∧ (MultiString.is_included b.fandoms = true →
        ("work_search[fandom_names]=", String.intercalate "," b.fandoms) ∈ queryParams b)
    ∧ (MultiString.is_included b.characters = true →
        ("work_search[character_names]=", String.intercalate "," b.characters) ∈ queryParams b)
    ∧ (MultiString.is_included b.relationships = true →
        ("work_search[relationship_name]=", String.intercalate "," b.relationships)
          ∈ queryParams b)
    ∧ (MultiString.is_included b.additional_tags = true →
        ("work_search[freeform_names]=", String.intercalate "," b.additional_tags)
          ∈ queryParams b)
    ∧ (queryParams b).filter (fun p => p.1 == "work_search[archive_warning_ids][]=")
        = b.archive_warnings.map
            (fun w => ("work_search[archive_warning_ids][]=", ArchiveWarning.to_query_value w))
    ∧ (queryParams b).filter (fun p => p.1 == "work_search[category_ids][]=")
        = b.categories.map
            (fun c => ("work_search[category_ids][]=", Category.to_query_value c)) := by
  refine ⟨?_, ?_, ?_, ?_, ?_, ?_, ?_, ?_⟩
  · simp only [queryParams, List.forall_mem_append]
    repeat' apply And.intro
    all_goals intro p hp
    all_goals first
      | (rw [mem_seg_fst hp]; decide)
      | (rw [mem_map_seg_fst hp]; decide)
      | (rcases List.mem_cons.mp hp with h | h
         · rw [show p.1 = "work_search[sort_column]=" from by rw [h]]
           decide
         · rw [show p.1 = "work_search[sort_direction]=" from by rw [List.mem_singleton.mp h]]
           decide)
  · intro h
    simp [queryParams, h, MultiString.to_query_value]
  · intro h
    simp [queryParams, h, MultiString.to_query_value]
  · intro h
    simp [queryParams, h, MultiString.to_query_value]
  · intro h
    simp [queryParams, h, MultiString.to_query_value]
  · intro h
    simp [queryParams, h, MultiString.to_query_value]
  · simp [queryParams, List.filter_append, filter_fst_ite_single, filter_fst_ite_map_ne,
      filter_fst_map_self]
  · simp [queryParams, List.filter_append, filter_fst_ite_single, filter_fst_ite_map_ne,
      filter_fst_map_self]

/-- C6 witness: the authors conjunct of the wire-key theorem applied to a
    concrete descriptor with two authors. -/
theorem c6_wire_keys_and_encodings_witness :
    ("work_search[authors]=", String.intercalate "," ["Author A", "Author B"])
      ∈ queryParams { AO3QueryBuilder.new with authors := ["Author A", "Author B"] } :=
  (c6_wire_keys_and_encodings { AO3QueryBuilder.new with authors := ["Author A", "Author B"] }).2.1
    (by decide)

/-- C7: the frozen enumerated code table: named Rating variants render 9-13 and
    the neutral Rating renders empty and is excluded, the six Category variants
    render 21, 22, 23, 24, 116 and 2246, the six ArchiveWarning variants render
    14, 16, 17, 18, 19 and 20, and a descriptor whose rating is the neutral
    variant emits no rating_ids parameter at all. -/
theorem c7_enum_code_table :
    (Rating.to_query_value Rating.notRated = "9"
      ∧ Rating.to_query_value Rating.general = "10"
      ∧ Rating.to_query_value Rating.teenAndUp = "11"
      ∧ Rating.to_query_value Rating.mature = "12"
      ∧ Rating.to_query_value Rating.explicit = "13"
      ∧ Rating.to_query_value Rating.none = ""
      ∧ Rating.is_included Rating.none = false
      ∧ Category.to_query_value Category.gen = "21"
      ∧ Category.to_query_value Category.fm = "22"
      ∧ Category.to_query_value Category.mm = "23"
      ∧ Category.to_query_value Category.other = "24"
      ∧ Category.to_query_value Category.ff = "116"
      ∧ Category.to_query_value Category.multi = "2246"
      ∧ ArchiveWarning.to_query_value ArchiveWarning.creatureChoseNotToUseArchiveWarnings = "14"
      ∧ ArchiveWarning.to_query_value ArchiveWarning.noArchiveWarningsApply = "16"
      ∧ ArchiveWarning.to_query_value ArchiveWarning.graphicDepictionOfViolence = "17"
      ∧ ArchiveWarning.to_query_value ArchiveWarning.majorCharacterDeath = "18"
      ∧ ArchiveWarning.to_query_value ArchiveWarning.rapeNonCon = "19"
      ∧ ArchiveWarning.to_query_value ArchiveWarning.underage = "20")
    ∧ (∀ b : AO3QueryBuilder, b.rating = Rating.none →
        keyCount (queryParams b) "work_search[rating_ids]=" = 0) := by
  refine ⟨by decide, ?_⟩
  intro b hb
  rw [keyCount_qp_rating_ids]
  simp [hb, Rating.is_included]

/-- C7 witness: the never-emitted conjunct applied to the default descriptor. -/
theorem c7_enum_code_table_witness :
    keyCount (queryParams AO3QueryBuilder.new) "work_search[rating_ids]=" = 0 :=
  c7_enum_code_table.2 AO3QueryBuilder.new rfl

/-- Record node carrying the article role but no id attribute. -/
def c8_no_id_node : HNode :=
  .tag "li" [("role", "article")] []

/-- Record node whose id attribute strips to the non-numeric text "abc", with a
    matching title link and an empty author/fandom container. -/
def c8_bad_id_node : HNode :=
  .tag "li" [("id", "work_abc")]
    [.tag "a" [("href", "/works/abc")] [.text "Some Title"],
     .tag "div" [("class", "fandoms heading")] []]

/-- The record extraction produces for the malformed non-numeric id. -/
def c8_bad_id_work : AO3Work :=
  { id := "abc", title := "Some Title", authors := [], fandoms := [] }

/-- C8 counterexample: a record node with no id attribute makes single-record
    extraction panic (unwrap of None) instead of returning a CouldNotFind error,
    and a record node whose id text is non-numeric after stripping is accepted
    verbatim into a successful record instead of raising a parse error. -/
theorem c8_missing_id_panics_and_bad_id_accepted :
    parse_search_single_work c8_no_id_node = PRes.panicked
    ∧ parse_search_single_work c8_bad_id_node = PRes.ok c8_bad_id_work := by
  refine ⟨by decide, by decide⟩

/-- C8 (amended): the record-id lookup has no error value at all: every record
    tag node without an id attribute makes single-record extraction panic, and
    the extractor's error type has CouldNotFind as its only variant, so no parse
    error distinct from CouldNotFind exists and a non-numeric id is never
    rejected. -/
theorem c8_id_error_contract_amended (nm : String) (ats : List (String × String))
    (ch : List HNode) (h : getAttr (HNode.tag nm ats ch) "id" = Option.none) :
    parse_search_single_work (HNode.tag nm ats ch) = PRes.panicked
    ∧ ∀ e : ParsingError, ∃ s, e = ParsingError.couldNotFind s := by
  constructor
  · simp [parse_search_single_work, h]
  · intro e
    cases e with
    | couldNotFind s => exact ⟨s, rfl⟩

/-- C8 witness: the amended theorem applied to the concrete id-less record tag. -/
theorem c8_id_error_contract_witness :
    parse_search_single_work (HNode.tag "li" [("role", "article")] []) = PRes.panicked
    ∧ ∀ e : ParsingError, ∃ s, e = ParsingError.couldNotFind s :=
  c8_id_error_contract_amended "li" [("role", "article")] [] rfl

/-- Descriptor whose title holds a space, a URL-reserved character. -/
def c9_builder : AO3QueryBuilder :=
  { AO3QueryBuilder.new with title := "a b" }

/-- C9 counterexample: the rendered query string carries the title's space
    verbatim and holds no percent sign anywhere, so the reserved character is
    not percent-escaped. -/
theorem c9_reserved_chars_verbatim :
    c9_builder.create_url
      = "https://archiveofourown.org/works/search?work_search[title]=a b&work_search[single_chapter]=0&work_search[sort_column]=_score&work_search[sort_direction]=desc"
    ∧ (c9_builder.create_url).data.contains ' ' = true
    ∧ (c9_builder.create_url).data.contains '%' = false := by
  refine ⟨by decide, by decide, by decide⟩

/-- C9 (amended): create_url performs no URL encoding: a present free-text or
    title value is emitted verbatim as the parameter value, reserved characters
    included, as the concrete descriptor with title "a&b c" shows at the full
    query-string level. -/
theorem c9_values_emitted_verbatim_amended (b : AO3QueryBuilder) :
    (String.is_included b.any_field = true →
      ("work_search[query]=", b.any_field) ∈ queryParams b)
    ∧ (String.is_included b.title = true →
      ("work_search[title]=", b.title) ∈ queryParams b)
    ∧ AO3QueryBuilder.create_url { AO3QueryBuilder.new with title := "a&b c" }
      = "https://archiveofourown.org/works/search?work_search[title]=a&b c&work_search[single_chapter]=0&work_search[sort_column]=_score&work_search[sort_direction]=desc" := by
  refine ⟨?_, ?_, by decide⟩
  · intro h
    simp [queryParams, h, String.to_query_value]
  · intro h
    simp [queryParams, h, String.to_query_value]

/-- C9 witness: the verbatim-title conjunct applied to a concrete descriptor
    whose title holds a space, an ampersand and an equals sign. -/
theorem c9_values_emitted_verbatim_witness :
    ("work_search[title]=", "x y&z=1")
      ∈ queryParams { AO3QueryBuilder.new with title := "x y&z=1" } :=
  (c9_values_emitted_verbatim_amended { AO3QueryBuilder.new with title := "x y&z=1" }).2.1
    (by decide)

/-- Descriptor whose single author name contains a comma. -/
def c10_b1 : AO3QueryBuilder :=
  { AO3QueryBuilder.new with authors := ["a,b"] }

/-- Descriptor with two distinct author names. -/
def c10_b2 : AO3QueryBuilder :=
  { AO3QueryBuilder.new with authors := ["a", "b"] }

/-- C10: the comma-joined encoding of string-list fields is not injective: the
    two descriptors differ (their author lists differ), yet they render to
    byte-identical query strings, so the author list cannot be recovered from
    the wire value. -/
theorem c10_comma_join_not_injective :
    c10_b1.authors ≠ c10_b2.authors
    ∧ c10_b1 ≠ c10_b2
    ∧ c10_b1.create_url = c10_b2.create_url := by
  refine ⟨by decide, by decide, by decide⟩
